import Mathlib

/-
Verification of the ApgRegrCalc regression engine.

The engine fits a 2-D point set to one of five curve families (linear,
polynomial, power, logarithmic, exponential), reporting fitted
coefficients, an equation string, predicted values and the coefficient of
determination.

Shallow embedding conventions:
* JS numbers are idealized as exact rationals.  Where the behaviour of
  IEEE special values (NaN, Infinity) is itself the property under
  study, a dedicated type JNum with explicit NaN and signed infinities
  is used instead (see below).
* The transcendental host functions Math.exp and Math.log, and the **
  operator at a non-integer exponent, have no exact rational
  counterpart; the estimators that use them take them as explicit
  function parameters, so theorems quantify over every interpretation.
* Stateful code (the in-place Gaussian elimination) is embedded by
  explicit state passing: the function returns both the final contents
  of the caller's array and the coefficient vector.
-/

/-- Embedding of IApg2DPoint: x is always present, y may be null
(absent observation). -/
structure Apg2DPoint where
  x : ℚ
  y : Option ℚ
deriving DecidableEq

/-- Embedding of eApgRegrTypes. -/
inductive eApgRegrTypes where
  | LINEAR
  | POLYNOMIAL
  | POWER
  | LOGARITMIC
  | EXPONENTIAL
deriving DecidableEq

/-- Embedding of IApgRegrOptions. -/
structure ApgRegrOptions where
  order : ℕ
  precision : ℤ

/-- Embedding of IApgRegrResult. -/
structure ApgRegrResult where
  points : List Apg2DPoint
  predicted : List Apg2DPoint
  type : eApgRegrTypes
  coefficients : List ℚ
  equation : String
  r2 : ℚ

namespace ApgRegrCalc

/-- The class constant DEFAULT_OPTIONS. -/
def DEFAULT_OPTIONS : ApgRegrOptions := ⟨2, 3⟩

/-- JS coercion of a possibly-null number in arithmetic position:
null coerces to 0. -/
def nullToZero (o : Option ℚ) : ℚ := o.getD 0

/-- JS number formatting in template literals, exact on integers
(the only values our string theorems evaluate it at). -/
def qToString (q : ℚ) : String :=
  if q.den = 1 then toString q.num else toString q.num ++ "/" ++ toString q.den

/-- Embedding of Math.abs. -/
def jsAbs (x : ℚ) : ℚ := if x < 0 then -x else x

/-- Embedding of Math.round: rounds to the nearest integer, ties toward
positive infinity. -/
def jsMathRound (x : ℚ) : ℤ := ⌊x + 1/2⌋

/-- The private round utility: scale by 10 ** precision, Math.round,
scale back. -/
def round (anumber : ℚ) (aprecision : ℤ) : ℚ :=
  let factor : ℚ := 10 ^ aprecision
  (jsMathRound (anumber * factor) : ℚ) / factor

/-- The sublist of points whose y is present; such points are the only
ones feeding the accumulated sums. -/
def presentOnly (apoints : List Apg2DPoint) : List Apg2DPoint :=
  apoints.filter (fun p => p.y.isSome)

/-- Embedding of determinationCoefficient over exact rationals (total
division; the NaN-producing edge cases are studied on the JNum variant
below). Filters out absent-y points together with the index-aligned
prediction, then returns 1 - SSres / SStot. -/
def determinationCoefficient (apoints : List Apg2DPoint)
    (results : List Apg2DPoint) : ℚ :=
  let pairs := (apoints.zip results).filter (fun pr => pr.1.y.isSome)
  let observations := pairs.map Prod.fst
  let sum := observations.foldl (fun accum acurrent => accum + nullToZero acurrent.y) 0
  let mean := sum / (observations.length : ℚ)
  let squaredDeviationFromMean := observations.foldl
    (fun accum acurrent =>
      accum + (nullToZero acurrent.y - mean) * (nullToZero acurrent.y - mean)) 0
  let squardDifferenceFromPredicted := pairs.foldl
    (fun accum pr =>
      accum + (nullToZero pr.1.y - nullToZero pr.2.y) *
        (nullToZero pr.1.y - nullToZero pr.2.y)) 0
  1 - squardDifferenceFromPredicted / squaredDeviationFromMean

/-- Matrix entry access, column-major as in the source:
first index selects the column (unknown), second the row (equation). -/
def mget (m : List (List ℚ)) (k i : ℕ) : ℚ := (m.getD k []).getD i 0

/-- Matrix entry update. -/
def mset (m : List (List ℚ)) (k i : ℕ) (v : ℚ) : List (List ℚ) :=
  m.set k ((m.getD k []).set i v)

/-- Pivot search of gaussianElimination: within column i, scan rows
i+1 .. n-1 for the entry of largest absolute value. -/
def pivotRow (m : List (List ℚ)) (i n : ℕ) : ℕ :=
  (List.range' (i + 1) (n - (i + 1))).foldl
    (fun maxrow j => if jsAbs (mget m i j) > jsAbs (mget m i maxrow) then j else maxrow) i

/-- Row swap of gaussianElimination: exchange rows i and maxrow in every
column k = i .. n. -/
def swapRows (m : List (List ℚ)) (i maxrow n : ℕ) : List (List ℚ) :=
  (List.range' i (n + 1 - i)).foldl
    (fun m k =>
      let tmp := mget m k i
      mset (mset m k i (mget m k maxrow)) k maxrow tmp) m

/-- Elimination step of gaussianElimination: for every row j below i and
every column k from n down to i, subtract m[k][i] * m[i][j] / m[i][i]
from m[k][j].  Every read is from the current state, as in the source. -/
def elimBelow (m : List (List ℚ)) (i n : ℕ) : List (List ℚ) :=
  (List.range' (i + 1) (n - (i + 1))).foldl
    (fun m j =>
      ((List.range' i (n + 1 - i)).reverse).foldl
        (fun m k => mset m k j (mget m k j - mget m k i * mget m i j / mget m i i)) m) m

/-- Back substitution of gaussianElimination, descending from j = n-1 to
j = n-t: coefficients[j] = (m[n][j] - sum of m[k][j]*coefficients[k]
for k = j+1 .. n-1) / m[j][j].  Returns the coefficients for indices
n-t .. n-1, lowest index first. -/
def backSubList (m : List (List ℚ)) (n : ℕ) : ℕ → List ℚ
  | 0 => []
  | t + 1 =>
    let cs := backSubList m n t
    let j := n - (t + 1)
    let total := (List.range cs.length).foldl
      (fun acc t => acc + mget m (j + 1 + t) j * cs.getD t 0) 0
    (mget m n j - total) / mget m j j :: cs

/-- Embedding of the private gaussianElimination.  The source mutates the
input array in place through the alias matrix = input; the first
component of the result is the post-call contents of the caller's array,
the second the returned coefficient vector.  The returned list starts as
the one-element array holding the order argument and is then written at
indices n-1 down to 0, so that value survives only when n = 0. -/
def gaussianElimination (input : List (List ℚ)) (order : ℕ) :
    List (List ℚ) × List ℚ :=
  let n := input.length - 1
  let matrix := (List.range n).foldl
    (fun m i => elimBelow (swapRows m i (pivotRow m i n) n) i n) input
  let coefficients := if n = 0 then [(order : ℚ)] else backSubList matrix n n
  (matrix, coefficients)

/-- The five running sums of the linear estimator together with the
count of present-y points. -/
structure LinSums where
  s0 : ℚ
  s1 : ℚ
  s2 : ℚ
  s3 : ℚ
  s4 : ℚ
  len : ℕ

/-- One loop iteration of the linear estimator's accumulation pass:
absent-y points contribute nothing. -/
def linStep (s : LinSums) (p : Apg2DPoint) : LinSums :=
  match p.y with
  | none => s
  | some y =>
    ⟨s.s0 + p.x, s.s1 + y, s.s2 + p.x * p.x, s.s3 + p.x * y, s.s4 + y * y, s.len + 1⟩

/-- The accumulation pass of the linear estimator. -/
def linearSums (apoints : List Apg2DPoint) : LinSums :=
  apoints.foldl linStep ⟨0, 0, 0, 0, 0, 0⟩

/-- The gradient of the linear estimator: 0 when the denominator
len * s2 - s0 * s0 vanishes, otherwise the rounded rise / run. -/
def linearGradient (s : LinSums) (aprecision : ℤ) : ℚ :=
  let run := (s.len : ℚ) * s.s2 - s.s0 * s.s0
  if run = 0 then 0
  else round (((s.len : ℚ) * s.s3 - s.s0 * s.s1) / run) aprecision

/-- The intercept of the linear estimator, computed from the already
rounded gradient. -/
def linearIntercept (s : LinSums) (gradient : ℚ) (aprecision : ℤ) : ℚ :=
  round (s.s1 / (s.len : ℚ) - gradient * s.s0 / (s.len : ℚ)) aprecision

/-- The prediction function of the linear estimator. -/
def linearPredict (gradient intercept : ℚ) (aprecision : ℤ) (x : ℚ) : Apg2DPoint :=
  ⟨round x aprecision, some (round (gradient * x + intercept) aprecision)⟩

/-- Embedding of ApgRegrCalc.linear. -/
def linear (apoints : List Apg2DPoint) (aoptions : ApgRegrOptions) : ApgRegrResult :=
  let s := linearSums apoints
  let gradient := linearGradient s aoptions.precision
  let intercept := linearIntercept s gradient aoptions.precision
  let predicted := apoints.map (fun point => linearPredict gradient intercept aoptions.precision point.x)
  { points := apoints
    predicted := predicted
    type := eApgRegrTypes.LINEAR
    coefficients := [gradient, intercept]
    equation :=
      if intercept = 0 then "y = " ++ qToString gradient ++ "x"
      else "y = " ++ qToString gradient ++ "x + " ++ qToString intercept
    r2 := round (determinationCoefficient apoints predicted) aoptions.precision }

/-- The six running sums of the exponential estimator. -/
structure ExpSums where
  s0 : ℚ
  s1 : ℚ
  s2 : ℚ
  s3 : ℚ
  s4 : ℚ
  s5 : ℚ

/-- One loop iteration of the exponential estimator's accumulation pass;
jlog stands for Math.log. -/
def expStep (jlog : ℚ → ℚ) (s : ExpSums) (p : Apg2DPoint) : ExpSums :=
  match p.y with
  | none => s
  | some y =>
    ⟨s.s0 + p.x, s.s1 + y, s.s2 + p.x * p.x * y, s.s3 + y * jlog y,
      s.s4 + p.x * y * jlog y, s.s5 + p.x * y⟩

/-- The accumulation pass of the exponential estimator. -/
def exponentialSums (jlog : ℚ → ℚ) (apoints : List Apg2DPoint) : ExpSums :=
  apoints.foldl (expStep jlog) ⟨0, 0, 0, 0, 0, 0⟩

/-- The prediction function of the exponential estimator. -/
def expPredict (jexp : ℚ → ℚ) (coeffA coeffB : ℚ) (aprecision : ℤ) (x : ℚ) :
    Apg2DPoint :=
  ⟨round x aprecision, some (round (coeffA * jexp (coeffB * x)) aprecision)⟩

/-- Embedding of ApgRegrCalc.exponential; jexp and jlog stand for
Math.exp and Math.log. -/
def exponential (jexp jlog : ℚ → ℚ) (apoints : List Apg2DPoint)
    (aoptions : ApgRegrOptions) : ApgRegrResult :=
  let s := exponentialSums jlog apoints
  let denominator := s.s1 * s.s2 - s.s5 * s.s5
  let a := jexp ((s.s2 * s.s3 - s.s5 * s.s4) / denominator)
  let b := (s.s1 * s.s4 - s.s5 * s.s3) / denominator
  let coeffA := round a aoptions.precision
  let coeffB := round b aoptions.precision
  let predicted := apoints.map (fun point => expPredict jexp coeffA coeffB aoptions.precision point.x)
  { points := apoints
    predicted := predicted
    type := eApgRegrTypes.EXPONENTIAL
    coefficients := [coeffA, coeffB]
    equation := "y = " ++ qToString coeffA ++ "e^(" ++ qToString coeffB ++ "x)"
    r2 := round (determinationCoefficient apoints predicted) aoptions.precision }

/-- The four running sums shared in shape by the logarithmic and power
estimators. -/
structure QuadSums where
  s0 : ℚ
  s1 : ℚ
  s2 : ℚ
  s3 : ℚ

/-- One loop iteration of the logarithmic estimator's accumulation pass. -/
def logStep (jlog : ℚ → ℚ) (s : QuadSums) (p : Apg2DPoint) : QuadSums :=
  match p.y with
  | none => s
  | some y =>
    ⟨s.s0 + jlog p.x, s.s1 + y * jlog p.x, s.s2 + y, s.s3 + jlog p.x ^ 2⟩

/-- The accumulation pass of the logarithmic estimator. -/
def logarithmicSums (jlog : ℚ → ℚ) (apoints : List Apg2DPoint) : QuadSums :=
  apoints.foldl (logStep jlog) ⟨0, 0, 0, 0⟩

/-- The prediction function of the logarithmic estimator. -/
def logPredict (jlog : ℚ → ℚ) (coeffA coeffB : ℚ) (aprecision : ℤ) (x : ℚ) :
    Apg2DPoint :=
  ⟨round x aprecision, some (round (coeffA + coeffB * jlog x) aprecision)⟩

/-- Embedding of ApgRegrCalc.logarithmic.  Note: len is the length of
the whole input list, absent-y points included. -/
def logarithmic (jlog : ℚ → ℚ) (apoints : List Apg2DPoint)
    (aoptions : ApgRegrOptions) : ApgRegrResult :=
  let s := logarithmicSums jlog apoints
  let len : ℚ := (apoints.length : ℚ)
  let a := (len * s.s1 - s.s2 * s.s0) / (len * s.s3 - s.s0 * s.s0)
  let coeffB := round a aoptions.precision
  let coeffA := round ((s.s2 - coeffB * s.s0) / len) aoptions.precision
  let predicted := apoints.map (fun point => logPredict jlog coeffA coeffB aoptions.precision point.x)
  { points := apoints
    predicted := predicted
    type := eApgRegrTypes.LOGARITMIC
    coefficients := [coeffA, coeffB]
    equation := "y = " ++ qToString coeffA ++ " + " ++ qToString coeffB ++ " ln(x)"
    r2 := round (determinationCoefficient apoints predicted) aoptions.precision }

/-- One loop iteration of the power estimator's accumulation pass. -/
def powStep (jlog : ℚ → ℚ) (s : QuadSums) (p : Apg2DPoint) : QuadSums :=
  match p.y with
  | none => s
  | some y =>
    ⟨s.s0 + jlog p.x, s.s1 + jlog y * jlog p.x, s.s2 + jlog y, s.s3 + jlog p.x ^ 2⟩

/-- The accumulation pass of the power estimator. -/
def powerSums (jlog : ℚ → ℚ) (apoints : List Apg2DPoint) : QuadSums :=
  apoints.foldl (powStep jlog) ⟨0, 0, 0, 0⟩

/-- The prediction function of the power estimator; jpow stands for the
JS ** operator at a possibly non-integer exponent. -/
def powPredict (jpow : ℚ → ℚ → ℚ) (coeffA coeffB : ℚ) (aprecision : ℤ) (ax : ℚ) :
    Apg2DPoint :=
  ⟨round ax aprecision, some (round (coeffA * jpow ax coeffB) aprecision)⟩

/-- Embedding of ApgRegrCalc.power.  Note: len is the length of the
whole input list, absent-y points included. -/
def power (jexp jlog : ℚ → ℚ) (jpow : ℚ → ℚ → ℚ) (apoints : List Apg2DPoint)
    (aoptions : ApgRegrOptions) : ApgRegrResult :=
  let s := powerSums jlog apoints
  let len : ℚ := (apoints.length : ℚ)
  let b := (len * s.s1 - s.s0 * s.s2) / (len * s.s3 - s.s0 ^ 2)
  let a := (s.s2 - b * s.s0) / len
  let coeffA := round (jexp a) aoptions.precision
  let coeffB := round b aoptions.precision
  let predicted := apoints.map (fun point => powPredict jpow coeffA coeffB aoptions.precision point.x)
  { points := apoints
    predicted := predicted
    type := eApgRegrTypes.POWER
    coefficients := [coeffA, coeffB]
    equation := "y = " ++ qToString coeffA ++ "x^" ++ qToString coeffB
    r2 := round (determinationCoefficient apoints predicted) aoptions.precision }

/-- The right-hand-side sums of the polynomial normal equations:
sum of x^i * y over present-y points. -/
def polySumXY (apoints : List Apg2DPoint) (i : ℕ) : ℚ :=
  apoints.foldl (fun a p => match p.y with | none => a | some y => a + p.x ^ i * y) 0

/-- The matrix sums of the polynomial normal equations:
sum of x^e over present-y points. -/
def polySumX (apoints : List Apg2DPoint) (e : ℕ) : ℚ :=
  apoints.foldl (fun b p => match p.y with | none => b | some _ => b + p.x ^ e) 0

/-- The augmented matrix the polynomial estimator hands to
gaussianElimination: k columns of the normal-equation matrix followed by
the right-hand-side column. -/
def polyMatrix (apoints : List Apg2DPoint) (k : ℕ) : List (List ℚ) :=
  ((List.range k).map fun i => (List.range k).map fun j => polySumX apoints (i + j)) ++
    [(List.range k).map fun i => polySumXY apoints i]

/-- The rounded solver output of the polynomial estimator, index =
power of x (lowest power first). -/
def polyCoefficients (apoints : List Apg2DPoint) (aoptions : ApgRegrOptions) :
    List ℚ :=
  ((gaussianElimination (polyMatrix apoints (aoptions.order + 1)) (aoptions.order + 1)).2).map
    (fun v => round v aoptions.precision)

/-- The prediction function of the polynomial estimator: the coefficient
at index power multiplies x ^ power. -/
def polyPredict (coefficients : List ℚ) (aprecision : ℤ) (x : ℚ) : Apg2DPoint :=
  ⟨round x aprecision,
    some (round ((List.range coefficients.length).foldl
      (fun sum power => sum + coefficients.getD power 0 * x ^ power) 0) aprecision)⟩

/-- The equation string of the polynomial estimator, emitted from the
highest power down to the constant term. -/
def polyEquation (coefficients : List ℚ) : String :=
  "y = " ++ (List.range coefficients.length).reverse.foldl
    (fun acc i =>
      if 1 < i then acc ++ qToString (coefficients.getD i 0) ++ "x^" ++ toString i ++ " + "
      else if i = 1 then acc ++ qToString (coefficients.getD i 0) ++ "x + "
      else acc ++ qToString (coefficients.getD i 0)) ""

/-- Embedding of ApgRegrCalc.polynomial.  The stored coefficient array
is the reverse of the solver output. -/
def polynomial (apoints : List Apg2DPoint) (aoptions : ApgRegrOptions) :
    ApgRegrResult :=
  let coefficients := polyCoefficients apoints aoptions
  let predicted := apoints.map (fun apoint => polyPredict coefficients aoptions.precision apoint.x)
  { points := apoints
    predicted := predicted
    type := eApgRegrTypes.POLYNOMIAL
    coefficients := coefficients.reverse
    equation := polyEquation coefficients
    r2 := round (determinationCoefficient apoints predicted) aoptions.precision }

end ApgRegrCalc

/-- JS double arithmetic with its special values: finite doubles
idealized as exact rationals, plus NaN and the two infinities.  Every
zero produced by the embedded code is a positive zero, so a single zero
suffices. -/
inductive JNum where
  | num (q : ℚ)
  | nan
  | pinf
  | ninf
deriving DecidableEq

/-- IEEE negation. -/
def JNum.neg : JNum → JNum
  | num q => num (-q)
  | nan => nan
  | pinf => ninf
  | ninf => pinf

/-- IEEE addition. -/
def JNum.add : JNum → JNum → JNum
  | num a, num b => num (a + b)
  | num _, pinf => pinf
  | num _, ninf => ninf
  | pinf, num _ => pinf
  | ninf, num _ => ninf
  | pinf, pinf => pinf
  | ninf, ninf => ninf
  | pinf, ninf => nan
  | ninf, pinf => nan
  | nan, _ => nan
  | _, nan => nan

/-- IEEE subtraction. -/
def JNum.sub (a b : JNum) : JNum := a.add b.neg

/-- IEEE multiplication. -/
def JNum.mul : JNum → JNum → JNum
  | num a, num b => num (a * b)
  | num a, pinf => if a = 0 then nan else if 0 < a then pinf else ninf
  | num a, ninf => if a = 0 then nan else if 0 < a then ninf else pinf
  | pinf, num b => if b = 0 then nan else if 0 < b then pinf else ninf
  | ninf, num b => if b = 0 then nan else if 0 < b then ninf else pinf
  | pinf, pinf => pinf
  | ninf, ninf => pinf
  | pinf, ninf => ninf
  | ninf, pinf => ninf
  | nan, _ => nan
  | _, nan => nan

/-- IEEE division; a zero denominator is the positive zero. -/
def JNum.div : JNum → JNum → JNum
  | num a, num b =>
    if b = 0 then (if a = 0 then nan else if 0 < a then pinf else ninf)
    else num (a / b)
  | num _, pinf => num 0
  | num _, ninf => num 0
  | pinf, num b => if 0 ≤ b then pinf else ninf
  | ninf, num b => if 0 ≤ b then ninf else pinf
  | pinf, pinf => nan
  | pinf, ninf => nan
  | ninf, pinf => nan
  | ninf, ninf => nan
  | nan, _ => nan
  | _, nan => nan

/-- Whether a JNum is an ordinary finite number. -/
def JNum.isFinite : JNum → Bool
  | num _ => true
  | _ => false

namespace ApgRegrCalc

/-- Embedding of determinationCoefficient carried out in JNum
arithmetic, so that the NaN / Infinity edge cases of the source are
reproduced exactly. -/
def determinationCoefficientJN (apoints : List Apg2DPoint)
    (results : List Apg2DPoint) : JNum :=
  let pairs := (apoints.zip results).filter (fun pr => pr.1.y.isSome)
  let observations := pairs.map Prod.fst
  let sum := observations.foldl
    (fun accum acurrent => accum.add (JNum.num (nullToZero acurrent.y))) (JNum.num 0)
  let mean := sum.div (JNum.num (observations.length : ℚ))
  let squaredDeviationFromMean := observations.foldl
    (fun accum acurrent =>
      accum.add (((JNum.num (nullToZero acurrent.y)).sub mean).mul
        ((JNum.num (nullToZero acurrent.y)).sub mean))) (JNum.num 0)
  let squardDifferenceFromPredicted := pairs.foldl
    (fun accum pr =>
      accum.add (((JNum.num (nullToZero pr.1.y)).sub (JNum.num (nullToZero pr.2.y))).mul
        ((JNum.num (nullToZero pr.1.y)).sub (JNum.num (nullToZero pr.2.y))))) (JNum.num 0)
  (JNum.num 1).sub (squardDifferenceFromPredicted.div squaredDeviationFromMean)

end ApgRegrCalc

open ApgRegrCalc

section HelperLemmas

/-- A fold whose step ignores absent-y points computes the same value on
a list and on its present-y sublist. -/
theorem foldl_presentOnly {σ : Type _} (g : σ → Apg2DPoint → σ)
    (hg : ∀ s p, p.y = none → g s p = s) :
    ∀ (l : List Apg2DPoint) (s : σ), l.foldl g s = (presentOnly l).foldl g s := by
  intro l
  induction l with
  | nil => intro s; rfl
  | cons p l ih =>
    intro s
    cases hp : p.y with
    | none =>
      have h1 : presentOnly (p :: l) = presentOnly l := by
        simp [presentOnly, List.filter_cons, hp]
      rw [List.foldl_cons, hg s p hp, h1]
      exact ih s
    | some v =>
      have h1 : presentOnly (p :: l) = p :: presentOnly l := by
        simp [presentOnly, List.filter_cons, hp]
      rw [List.foldl_cons, h1, List.foldl_cons]
      exact ih (g s p)

theorem linearSums_presentOnly (l : List Apg2DPoint) :
    linearSums l = linearSums (presentOnly l) :=
  foldl_presentOnly linStep (fun s p hp => by simp [linStep, hp]) l _

theorem exponentialSums_presentOnly (jlog : ℚ → ℚ) (l : List Apg2DPoint) :
    exponentialSums jlog l = exponentialSums jlog (presentOnly l) :=
  foldl_presentOnly (expStep jlog) (fun s p hp => by simp [expStep, hp]) l _

theorem logarithmicSums_presentOnly (jlog : ℚ → ℚ) (l : List Apg2DPoint) :
    logarithmicSums jlog l = logarithmicSums jlog (presentOnly l) :=
  foldl_presentOnly (logStep jlog) (fun s p hp => by simp [logStep, hp]) l _

theorem powerSums_presentOnly (jlog : ℚ → ℚ) (l : List Apg2DPoint) :
    powerSums jlog l = powerSums jlog (presentOnly l) :=
  foldl_presentOnly (powStep jlog) (fun s p hp => by simp [powStep, hp]) l _

theorem polySumXY_presentOnly (l : List Apg2DPoint) (i : ℕ) :
    polySumXY l i = polySumXY (presentOnly l) i :=
  foldl_presentOnly _ (fun s p hp => by simp [hp]) l 0

theorem polySumX_presentOnly (l : List Apg2DPoint) (e : ℕ) :
    polySumX l e = polySumX (presentOnly l) e :=
  foldl_presentOnly _ (fun s p hp => by simp [hp]) l 0

theorem polyMatrix_presentOnly (l : List Apg2DPoint) (k : ℕ) :
    polyMatrix l k = polyMatrix (presentOnly l) k := by
  simp only [polyMatrix, polySumX_presentOnly l, polySumXY_presentOnly l]

theorem linear_coefficients_def (apoints : List Apg2DPoint) (aoptions : ApgRegrOptions) :
    (linear apoints aoptions).coefficients =
      [linearGradient (linearSums apoints) aoptions.precision,
        linearIntercept (linearSums apoints)
          (linearGradient (linearSums apoints) aoptions.precision) aoptions.precision] := rfl

theorem exponential_coefficients_def (jexp jlog : ℚ → ℚ) (apoints : List Apg2DPoint)
    (aoptions : ApgRegrOptions) :
    (exponential jexp jlog apoints aoptions).coefficients =
      [ApgRegrCalc.round (jexp (((exponentialSums jlog apoints).s2 * (exponentialSums jlog apoints).s3 -
          (exponentialSums jlog apoints).s5 * (exponentialSums jlog apoints).s4) /
          ((exponentialSums jlog apoints).s1 * (exponentialSums jlog apoints).s2 -
            (exponentialSums jlog apoints).s5 * (exponentialSums jlog apoints).s5))) aoptions.precision,
        ApgRegrCalc.round (((exponentialSums jlog apoints).s1 * (exponentialSums jlog apoints).s4 -
          (exponentialSums jlog apoints).s5 * (exponentialSums jlog apoints).s3) /
          ((exponentialSums jlog apoints).s1 * (exponentialSums jlog apoints).s2 -
            (exponentialSums jlog apoints).s5 * (exponentialSums jlog apoints).s5)) aoptions.precision] := rfl

theorem logarithmic_coefficients_def (jlog : ℚ → ℚ) (apoints : List Apg2DPoint)
    (aoptions : ApgRegrOptions) :
    (logarithmic jlog apoints aoptions).coefficients =
      [ApgRegrCalc.round (((logarithmicSums jlog apoints).s2 -
          ApgRegrCalc.round (((apoints.length : ℚ) * (logarithmicSums jlog apoints).s1 -
            (logarithmicSums jlog apoints).s2 * (logarithmicSums jlog apoints).s0) /
            ((apoints.length : ℚ) * (logarithmicSums jlog apoints).s3 -
              (logarithmicSums jlog apoints).s0 * (logarithmicSums jlog apoints).s0)) aoptions.precision *
          (logarithmicSums jlog apoints).s0) / (apoints.length : ℚ)) aoptions.precision,
        ApgRegrCalc.round (((apoints.length : ℚ) * (logarithmicSums jlog apoints).s1 -
          (logarithmicSums jlog apoints).s2 * (logarithmicSums jlog apoints).s0) /
          ((apoints.length : ℚ) * (logarithmicSums jlog apoints).s3 -
            (logarithmicSums jlog apoints).s0 * (logarithmicSums jlog apoints).s0)) aoptions.precision] := rfl

theorem power_coefficients_def (jexp jlog : ℚ → ℚ) (jpow : ℚ → ℚ → ℚ)
    (apoints : List Apg2DPoint) (aoptions : ApgRegrOptions) :
    (power jexp jlog jpow apoints aoptions).coefficients =
      [ApgRegrCalc.round (jexp (((powerSums jlog apoints).s2 -
          ((apoints.length : ℚ) * (powerSums jlog apoints).s1 -
            (powerSums jlog apoints).s0 * (powerSums jlog apoints).s2) /
            ((apoints.length : ℚ) * (powerSums jlog apoints).s3 - (powerSums jlog apoints).s0 ^ 2) *
          (powerSums jlog apoints).s0) / (apoints.length : ℚ))) aoptions.precision,
        ApgRegrCalc.round (((apoints.length : ℚ) * (powerSums jlog apoints).s1 -
          (powerSums jlog apoints).s0 * (powerSums jlog apoints).s2) /
          ((apoints.length : ℚ) * (powerSums jlog apoints).s3 - (powerSums jlog apoints).s0 ^ 2))
          aoptions.precision] := rfl

theorem polynomial_coefficients_def (apoints : List Apg2DPoint) (aoptions : ApgRegrOptions) :
    (polynomial apoints aoptions).coefficients = (polyCoefficients apoints aoptions).reverse := rfl

end HelperLemmas

/-- Rounding to the nearest integer with ties half away from zero,
as the claim describes it (spec words, for comparison with the code's
Math.round). -/
def halfAwayFromZero (q : ℚ) : ℤ := if 0 ≤ q then ⌊q + 1/2⌋ else -⌊-q + 1/2⌋

/-- The rounding utility the claim describes: scale by 10 ^ p, round to
the nearest integer with ties half away from zero, scale back down. -/
def roundHalfAwaySpec (x : ℚ) (p : ℤ) : ℚ :=
  (halfAwayFromZero (x * 10 ^ p) : ℚ) / 10 ^ p

/-- C4, counterexample: at x = -3/2, p = 0 the code's rounding utility
returns -1 (Math.round ties go toward positive infinity), while the
claimed half-away-from-zero rounding returns -2, so the claim is false
as stated. -/
theorem c4_ties_not_half_away_from_zero :
    ApgRegrCalc.round (-3/2) 0 = -1 ∧ roundHalfAwaySpec (-3/2) 0 = -2 ∧
      ApgRegrCalc.round (-3/2) 0 ≠ roundHalfAwaySpec (-3/2) 0 := by
  norm_num [ApgRegrCalc.round, roundHalfAwaySpec, jsMathRound, halfAwayFromZero]

/-- C4, amended: the rounding utility returns x scaled by 10 ^ p,
rounded to the nearest integer with ties rounded toward positive
infinity (JS Math.round), then scaled back down; the scaled rounding is
never further than 1/2 from the scaled input, ties n + 1/2 round up to
n + 1, and round(1.2345, 2) = 1.23 and round(12345, -2) = 12300. -/
theorem c4_round_scaled_ties_toward_pos_infinity :
    (∀ (x : ℚ) (p : ℤ),
      ApgRegrCalc.round x p = ((⌊x * 10 ^ p + 1/2⌋ : ℤ) : ℚ) / 10 ^ p) ∧
    (∀ n : ℤ, ApgRegrCalc.round ((n : ℚ) + 1/2) 0 = (n : ℚ) + 1) ∧
    (∀ (x : ℚ) (p : ℤ),
      |x * 10 ^ p - ((jsMathRound (x * 10 ^ p) : ℤ) : ℚ)| ≤ 1/2) ∧
    ApgRegrCalc.round (12345/10000) 2 = 123/100 ∧
    ApgRegrCalc.round 12345 (-2) = 12300 := by
  refine ⟨fun x p => rfl, fun n => ?_, fun x p => ?_, ?_, ?_⟩
  · simp only [ApgRegrCalc.round, jsMathRound, zpow_zero, mul_one, div_one]
    have h : (n : ℚ) + 1/2 + 1/2 = ((n + 1 : ℤ) : ℚ) := by push_cast; ring
    rw [h, Int.floor_intCast]
    push_cast
    ring
  · rw [abs_le]
    have h1 := Int.floor_le (x * 10 ^ p + 1/2)
    have h2 := Int.lt_floor_add_one (x * 10 ^ p + 1/2)
    constructor
    · simp only [jsMathRound]; linarith
    · simp only [jsMathRound]; linarith
  · norm_num [ApgRegrCalc.round, jsMathRound]
  · norm_num [ApgRegrCalc.round, jsMathRound]

/-- C6: gaussianElimination on the augmented matrix of the system
x+y+z=6, 2y+5z=-4, 2x+5y-z=27, given in the source's column-major
convention (each outer entry is one unknown's column across the three
equations, the last outer entry the right-hand-side column), returns
the exact solution [5, 3, -2]. -/
theorem c6_gaussian_elimination_known_system :
    (ApgRegrCalc.gaussianElimination [[1, 0, 2], [1, 2, 5], [1, 5, -1], [6, -4, 27]] 3).2 =
      [5, 3, -2] := by
  norm_num [gaussianElimination, pivotRow, swapRows, elimBelow, backSubList, mget, mset,
    jsAbs, List.foldl, List.range', List.range_succ, List.range_zero, List.getD, List.set]

/-- C9: gaussianElimination writes through the alias matrix = input, so
after the call the caller's array holds the row-reduced matrix (the
first component of the embedded state-passing result), not the original
entries: on the system of the known 3x3 example the post-call contents
differ from the input. -/
theorem c9_gaussian_elimination_updates_input :
    (ApgRegrCalc.gaussianElimination [[1, 0, 2], [1, 2, 5], [1, 5, -1], [6, -4, 27]] 3).1 =
      [[2, 0, 0], [5, 2, 0], [-1, 5, 21/4], [27, -4, -21/2]] ∧
    (ApgRegrCalc.gaussianElimination [[1, 0, 2], [1, 2, 5], [1, 5, -1], [6, -4, 27]] 3).1 ≠
      [[1, 0, 2], [1, 2, 5], [1, 5, -1], [6, -4, 27]] := by
  constructor
  · norm_num [gaussianElimination, pivotRow, swapRows, elimBelow, backSubList, mget, mset,
      jsAbs, List.foldl, List.range', List.range_succ, List.range_zero, List.getD, List.set]
  · norm_num [gaussianElimination, pivotRow, swapRows, elimBelow, backSubList, mget, mset,
      jsAbs, List.foldl, List.range', List.range_succ, List.range_zero, List.getD, List.set]

/-- C7: the linear fit's coefficient array is [gradient, intercept], and
whenever the least-squares denominator len * sum(x^2) - sum(x)^2 over
the present-y points vanishes, the gradient coefficient is 0. -/
theorem c7_zero_run_gradient_zero :
    (∀ (apoints : List Apg2DPoint) (aoptions : ApgRegrOptions),
      (linear apoints aoptions).coefficients =
        [linearGradient (linearSums apoints) aoptions.precision,
          linearIntercept (linearSums apoints)
            (linearGradient (linearSums apoints) aoptions.precision) aoptions.precision]) ∧
    (∀ (apoints : List Apg2DPoint) (aoptions : ApgRegrOptions),
      ((linearSums apoints).len : ℚ) * (linearSums apoints).s2 -
          (linearSums apoints).s0 * (linearSums apoints).s0 = 0 →
        linearGradient (linearSums apoints) aoptions.precision = 0) := by
  refine ⟨fun apoints aoptions => rfl, fun apoints aoptions h => ?_⟩
  simp only [linearGradient]
  rw [if_pos h]

/-- Witness for C7 at the concrete input [(1,1),(1,3)], whose two equal
x values make the denominator vanish: the gradient coefficient is 0. -/
theorem c7_zero_run_gradient_zero_witness :
    (((linearSums [⟨1, some 1⟩, ⟨1, some 3⟩]).len : ℚ) * (linearSums [⟨1, some 1⟩, ⟨1, some 3⟩]).s2 -
        (linearSums [⟨1, some 1⟩, ⟨1, some 3⟩]).s0 * (linearSums [⟨1, some 1⟩, ⟨1, some 3⟩]).s0 = 0) ∧
      linearGradient (linearSums [⟨1, some 1⟩, ⟨1, some 3⟩]) (3 : ℤ) = 0 :=
  ⟨by norm_num [linearSums, linStep, List.foldl],
    c7_zero_run_gradient_zero.2 [⟨1, some 1⟩, ⟨1, some 3⟩] ⟨2, 3⟩
      (by norm_num [linearSums, linStep, List.foldl])⟩

/-- C1, counterexample: on the order-1 fit of [(0,0),(1,1),(2,2)] at
precision 3, the solver's rounded output (index = power of x, as its use
in the prediction function shows) is [0, 1], while the stored result
array is [1, 0]: index 0 of the stored array holds the highest-power
coefficient 1, not the lowest-power (constant) coefficient 0, so the
claimed low-to-high storage is false. -/
theorem c1_storage_not_low_to_high :
    (polynomial [⟨0, some 0⟩, ⟨1, some 1⟩, ⟨2, some 2⟩] ⟨1, 3⟩).coefficients = [1, 0] ∧
    polyCoefficients [⟨0, some 0⟩, ⟨1, some 1⟩, ⟨2, some 2⟩] ⟨1, 3⟩ = [0, 1] ∧
    (polynomial [⟨0, some 0⟩, ⟨1, some 1⟩, ⟨2, some 2⟩] ⟨1, 3⟩).coefficients.getD 0 0 ≠
      (polyCoefficients [⟨0, some 0⟩, ⟨1, some 1⟩, ⟨2, some 2⟩] ⟨1, 3⟩).getD 0 0 := by
  refine ⟨?_, ?_, ?_⟩ <;>
  norm_num [polynomial, polyCoefficients, polyMatrix, polySumX, polySumXY,
    gaussianElimination, pivotRow, swapRows, elimBelow, backSubList, mget, mset, jsAbs,
    ApgRegrCalc.round, jsMathRound,
    List.foldl, List.range', List.range_succ, List.range_zero, List.getD, List.set]

/-- C1, amended: the polynomial solver's output is stored lowest power
first (index = power, exactly how the prediction function consumes it);
the result array is its reverse, so index 0 holds the highest-power
coefficient and the last index the constant term, matching the
high-to-low [gradient, intercept] convention of the other kinds; the
equation string is emitted highest power first.  On the order-1 fit of
[(0,0),(1,1),(2,2)] this gives stored [1, 0] and equation
"y = 1x + 0". -/
theorem c1_poly_coefficients_reversed_highest_first :
    (∀ (apoints : List Apg2DPoint) (aoptions : ApgRegrOptions),
      (polynomial apoints aoptions).coefficients = (polyCoefficients apoints aoptions).reverse ∧
      (polynomial apoints aoptions).predicted =
        apoints.map (fun p => polyPredict (polyCoefficients apoints aoptions) aoptions.precision p.x) ∧
      (polynomial apoints aoptions).equation = polyEquation (polyCoefficients apoints aoptions)) ∧
    (polynomial [⟨0, some 0⟩, ⟨1, some 1⟩, ⟨2, some 2⟩] ⟨1, 3⟩).coefficients = [1, 0] ∧
    (polynomial [⟨0, some 0⟩, ⟨1, some 1⟩, ⟨2, some 2⟩] ⟨1, 3⟩).equation = "y = 1x + 0" := by
  refine ⟨fun apoints aoptions => ⟨rfl, rfl, rfl⟩, ?_, ?_⟩
  · norm_num [polynomial, polyCoefficients, polyMatrix, polySumX, polySumXY,
      gaussianElimination, pivotRow, swapRows, elimBelow, backSubList, mget, mset, jsAbs,
      ApgRegrCalc.round, jsMathRound,
      List.foldl, List.range', List.range_succ, List.range_zero, List.getD, List.set]
  · have hc : polyCoefficients [⟨0, some 0⟩, ⟨1, some 1⟩, ⟨2, some 2⟩] ⟨1, 3⟩ = [0, 1] := by
      norm_num [polyCoefficients, polyMatrix, polySumX, polySumXY,
        gaussianElimination, pivotRow, swapRows, elimBelow, backSubList, mget, mset, jsAbs,
        ApgRegrCalc.round, jsMathRound,
        List.foldl, List.range', List.range_succ, List.range_zero, List.getD, List.set]
    rw [show (polynomial [⟨0, some 0⟩, ⟨1, some 1⟩, ⟨2, some 2⟩] ⟨1, 3⟩).equation =
        polyEquation (polyCoefficients [⟨0, some 0⟩, ⟨1, some 1⟩, ⟨2, some 2⟩] ⟨1, 3⟩) from rfl, hc]
    decide

/-- C5: on points [(0,0),(1,1),(2,2)] with order 1 and precision 3, the
polynomial fit's stored coefficients coincide with the linear fit's
[1, 0] (slope 1, intercept 0), and both report r2 = 1. -/
theorem c5_polynomial_order_one_matches_linear :
    (polynomial [⟨0, some 0⟩, ⟨1, some 1⟩, ⟨2, some 2⟩] ⟨1, 3⟩).coefficients = [1, 0] ∧
    (linear [⟨0, some 0⟩, ⟨1, some 1⟩, ⟨2, some 2⟩] ⟨1, 3⟩).coefficients = [1, 0] ∧
    (polynomial [⟨0, some 0⟩, ⟨1, some 1⟩, ⟨2, some 2⟩] ⟨1, 3⟩).r2 = 1 ∧
    (linear [⟨0, some 0⟩, ⟨1, some 1⟩, ⟨2, some 2⟩] ⟨1, 3⟩).r2 = 1 := by
  refine ⟨?_, ?_, ?_, ?_⟩ <;>
  norm_num [polynomial, polyCoefficients, polyMatrix, polySumX, polySumXY, polyPredict,
    gaussianElimination, pivotRow, swapRows, elimBelow, backSubList, mget, mset, jsAbs,
    linear, linearSums, linStep, linearGradient, linearIntercept, linearPredict,
    determinationCoefficient, nullToZero, ApgRegrCalc.round, jsMathRound,
    List.foldl, List.range', List.range_succ, List.range_zero, List.getD, List.set,
    List.zip, List.zipWith, List.filter]

/-- A concrete stand-in interpretation of Math.log, used to instantiate
the universally quantified C3 claim at one input. -/
def jlogEx : ℚ → ℚ := fun x => if x = 4 then 7/5 else 0

/-- C3, counterexample: in the logarithmic fit the divisor len is the
length of the whole input list, absent-y points included, so the
coefficients do not equal those computed from the present-y sublist
alone: with points [(1,2),(4,3),(9,null)] (present-y sublist
[(1,2),(4,3)]) the two coefficient vectors differ under the
interpretation jlogEx of Math.log. -/
theorem c3_logarithmic_divisor_counts_absent_points :
    presentOnly [⟨1, some 2⟩, ⟨4, some 3⟩, ⟨9, none⟩] = [⟨1, some 2⟩, ⟨4, some 3⟩] ∧
    (logarithmic jlogEx [⟨1, some 2⟩, ⟨4, some 3⟩, ⟨9, none⟩] ⟨2, 3⟩).coefficients ≠
      (logarithmic jlogEx [⟨1, some 2⟩, ⟨4, some 3⟩] ⟨2, 3⟩).coefficients := by
  refine ⟨rfl, ?_⟩
  norm_num [logarithmic, logarithmicSums, logStep, jlogEx,
    ApgRegrCalc.round, jsMathRound, List.foldl]

/-- C3, amended: every accumulated sum ranges only over present-y
points.  For the linear, exponential and polynomial fits the
coefficients therefore equal those of the present-y sublist alone; for
the logarithmic and power fits the divisor len is the whole list's
length, so the coefficients agree between any two inputs sharing the
present-y sublist and the total length (but not necessarily with the
sublist itself). -/
theorem c3_coefficients_ignore_absent_y :
    (∀ (apoints : List Apg2DPoint) (aoptions : ApgRegrOptions),
      (linear apoints aoptions).coefficients =
        (linear (presentOnly apoints) aoptions).coefficients) ∧
    (∀ (jexp jlog : ℚ → ℚ) (apoints : List Apg2DPoint) (aoptions : ApgRegrOptions),
      (exponential jexp jlog apoints aoptions).coefficients =
        (exponential jexp jlog (presentOnly apoints) aoptions).coefficients) ∧
    (∀ (apoints : List Apg2DPoint) (aoptions : ApgRegrOptions),
      (polynomial apoints aoptions).coefficients =
        (polynomial (presentOnly apoints) aoptions).coefficients) ∧
    (∀ (jlog : ℚ → ℚ) (apoints apoints' : List Apg2DPoint) (aoptions : ApgRegrOptions),
      presentOnly apoints = presentOnly apoints' → apoints.length = apoints'.length →
      (logarithmic jlog apoints aoptions).coefficients =
        (logarithmic jlog apoints' aoptions).coefficients) ∧
    (∀ (jexp jlog : ℚ → ℚ) (jpow : ℚ → ℚ → ℚ) (apoints apoints' : List Apg2DPoint)
      (aoptions : ApgRegrOptions),
      presentOnly apoints = presentOnly apoints' → apoints.length = apoints'.length →
      (power jexp jlog jpow apoints aoptions).coefficients =
        (power jexp jlog jpow apoints' aoptions).coefficients) := by
  refine ⟨?_, ?_, ?_, ?_, ?_⟩
  · intro apoints aoptions
    rw [linear_coefficients_def, linear_coefficients_def, ← linearSums_presentOnly]
  · intro jexp jlog apoints aoptions
    rw [exponential_coefficients_def, exponential_coefficients_def,
      ← exponentialSums_presentOnly]
  · intro apoints aoptions
    rw [polynomial_coefficients_def, polynomial_coefficients_def]
    unfold polyCoefficients
    rw [← polyMatrix_presentOnly]
  · intro jlog apoints apoints' aoptions hfilter hlen
    rw [logarithmic_coefficients_def, logarithmic_coefficients_def,
      logarithmicSums_presentOnly jlog apoints, logarithmicSums_presentOnly jlog apoints',
      hfilter, hlen]
  · intro jexp jlog jpow apoints apoints' aoptions hfilter hlen
    rw [power_coefficients_def, power_coefficients_def,
      powerSums_presentOnly jlog apoints, powerSums_presentOnly jlog apoints',
      hfilter, hlen]

/-- Witness for C3 at concrete inputs: two lists sharing the present-y
sublist [(1,2)] and the total length 2 give the logarithmic and power
fits the same coefficients. -/
theorem c3_coefficients_ignore_absent_y_witness :
    presentOnly [⟨1, some 2⟩, ⟨4, none⟩] = presentOnly [⟨1, some 2⟩, ⟨9, none⟩] ∧
    ([⟨1, some 2⟩, ⟨4, none⟩] : List Apg2DPoint).length =
      ([⟨1, some 2⟩, ⟨9, none⟩] : List Apg2DPoint).length ∧
    (logarithmic (fun _ => 0) [⟨1, some 2⟩, ⟨4, none⟩] ⟨2, 3⟩).coefficients =
      (logarithmic (fun _ => 0) [⟨1, some 2⟩, ⟨9, none⟩] ⟨2, 3⟩).coefficients ∧
    (power (fun _ => 1) (fun _ => 0) (fun _ _ => 0) [⟨1, some 2⟩, ⟨4, none⟩] ⟨2, 3⟩).coefficients =
      (power (fun _ => 1) (fun _ => 0) (fun _ _ => 0) [⟨1, some 2⟩, ⟨9, none⟩] ⟨2, 3⟩).coefficients :=
  ⟨rfl, rfl,
    c3_coefficients_ignore_absent_y.2.2.2.1 (fun _ => 0)
      [⟨1, some 2⟩, ⟨4, none⟩] [⟨1, some 2⟩, ⟨9, none⟩] ⟨2, 3⟩ rfl rfl,
    c3_coefficients_ignore_absent_y.2.2.2.2 (fun _ => 1) (fun _ => 0) (fun _ _ => 0)
      [⟨1, some 2⟩, ⟨4, none⟩] [⟨1, some 2⟩, ⟨9, none⟩] ⟨2, 3⟩ rfl rfl⟩

/-- For index-aligned inputs, the observations kept by the
determination-coefficient filter are exactly the present-y points. -/
theorem zip_filter_fst :
    ∀ (aps rs : List Apg2DPoint), aps.length = rs.length →
      ((aps.zip rs).filter (fun pr => pr.1.y.isSome)).map Prod.fst = presentOnly aps := by
  intro aps
  induction aps with
  | nil => intro rs _; rfl
  | cons p aps ih =>
    intro rs h
    cases rs with
    | nil => simp at h
    | cons r rs =>
      have h' : aps.length = rs.length := by simpa using h
      cases hp : p.y with
      | none =>
        simp only [List.zip_cons_cons, List.filter_cons, hp, Option.isSome_none,
          Bool.false_eq_true, if_false, presentOnly, decide_False]
        rw [ih rs h']
        rfl
      | some v =>
        simp only [List.zip_cons_cons, List.filter_cons, hp, Option.isSome_some,
          if_true, List.map_cons, presentOnly, decide_True]
        rw [ih rs h']
        rfl

/-- C2, counterexample: with a single present-y point whose prediction
differs from the observation, SStot is 0 while SSres is positive, so the
source computes 1 - SSres/0 = 1 - Infinity = -Infinity, not NaN: the
claim that fewer than 2 present points always yield NaN is false. -/
theorem c2_single_point_residual_not_nan :
    determinationCoefficientJN [⟨0, some 0⟩] [⟨0, some 3⟩] = JNum.ninf ∧
    JNum.ninf ≠ JNum.nan := by
  constructor
  · norm_num [determinationCoefficientJN, nullToZero, JNum.add, JNum.sub, JNum.mul,
      JNum.div, JNum.neg, List.foldl, List.zip, List.zipWith, List.filter]
  · decide

/-- C2, amended: for index-aligned point and prediction arrays with
fewer than 2 present-y points the result is never a finite number: it is
NaN when no point remains or the single remaining residual is 0, and
-Infinity when the single remaining residual is nonzero. -/
theorem c2_fewer_than_two_present_not_finite :
    ∀ (apoints results : List Apg2DPoint), apoints.length = results.length →
      (presentOnly apoints).length < 2 →
      (determinationCoefficientJN apoints results).isFinite = false := by
  intro aps rs hlen hcount
  have hfst := zip_filter_fst aps rs hlen
  have hplen : ((aps.zip rs).filter (fun pr => pr.1.y.isSome)).length < 2 := by
    have := congrArg List.length hfst
    rw [List.length_map] at this
    rw [this]
    exact hcount
  cases hpairs : (aps.zip rs).filter (fun pr => pr.1.y.isSome) with
  | nil =>
    simp [determinationCoefficientJN, hpairs, JNum.add, JNum.sub, JNum.neg, JNum.div,
      JNum.mul, JNum.isFinite]
  | cons pr rest =>
    cases rest with
    | cons pr2 rest2 =>
      rw [hpairs] at hplen
      simp at hplen
      omega
    | nil =>
      have hmem : pr ∈ (aps.zip rs).filter (fun pr => pr.1.y.isSome) := by
        rw [hpairs]
        exact List.mem_singleton.mpr rfl
      have hsome : pr.1.y.isSome := by simpa using (List.mem_filter.mp hmem).2
      obtain ⟨yv, hyv⟩ := Option.isSome_iff_exists.mp hsome
      rcases eq_or_ne (yv - nullToZero pr.2.y) 0 with hd | hd
      · simp [determinationCoefficientJN, hpairs, hyv, nullToZero, hd, sub_eq_zero.mp hd,
          JNum.add, JNum.sub, JNum.neg, JNum.div, JNum.mul, JNum.isFinite]
      · have hpos : 0 < (yv - nullToZero pr.2.y) * (yv - nullToZero pr.2.y) :=
          mul_self_pos.mpr hd
        have hd2 : yv + -pr.2.y.getD 0 ≠ 0 := by
          simpa [nullToZero, sub_eq_add_neg] using hd
        simp [determinationCoefficientJN, hpairs, hyv, nullToZero,
          JNum.add, JNum.sub, JNum.neg, JNum.div, JNum.mul, JNum.isFinite,
          hpos, hpos.ne', hd, hd2]

/-- Witness for C2 at the concrete input of one present-y point whose
prediction equals the observation: the result is not finite. -/
theorem c2_fewer_than_two_present_not_finite_witness :
    ([⟨0, some 0⟩] : List Apg2DPoint).length = ([⟨0, some 0⟩] : List Apg2DPoint).length ∧
    (presentOnly [⟨0, some 0⟩]).length < 2 ∧
    (determinationCoefficientJN [⟨0, some 0⟩] [⟨0, some 0⟩]).isFinite = false :=
  ⟨rfl, by decide,
    c2_fewer_than_two_present_not_finite [⟨0, some 0⟩] [⟨0, some 0⟩] rfl (by decide)⟩

/-- C8: for every fit kind (under every interpretation of the host's
exp, log and non-integer power), the result's points field is the input
list itself, unmodified; predicted has the same length; and the
prediction at index i is the kind's prediction function applied to the
x of the input point at index i. -/
theorem c8_predicted_aligned_points_unmodified :
    ∀ (jexp jlog : ℚ → ℚ) (jpow : ℚ → ℚ → ℚ) (apoints : List Apg2DPoint)
      (aoptions : ApgRegrOptions),
      ((linear apoints aoptions).points = apoints ∧
        (linear apoints aoptions).predicted.length = apoints.length ∧
        ∀ i : ℕ, (linear apoints aoptions).predicted[i]? = apoints[i]?.map (fun p =>
          linearPredict (linearGradient (linearSums apoints) aoptions.precision)
            (linearIntercept (linearSums apoints)
              (linearGradient (linearSums apoints) aoptions.precision) aoptions.precision)
            aoptions.precision p.x)) ∧
      ((exponential jexp jlog apoints aoptions).points = apoints ∧
        (exponential jexp jlog apoints aoptions).predicted.length = apoints.length ∧
        ∀ i : ℕ, (exponential jexp jlog apoints aoptions).predicted[i]? =
          apoints[i]?.map (fun p => expPredict jexp
            ((exponential jexp jlog apoints aoptions).coefficients.getD 0 0)
            ((exponential jexp jlog apoints aoptions).coefficients.getD 1 0)
            aoptions.precision p.x)) ∧
      ((logarithmic jlog apoints aoptions).points = apoints ∧
        (logarithmic jlog apoints aoptions).predicted.length = apoints.length ∧
        ∀ i : ℕ, (logarithmic jlog apoints aoptions).predicted[i]? =
          apoints[i]?.map (fun p => logPredict jlog
            ((logarithmic jlog apoints aoptions).coefficients.getD 0 0)
            ((logarithmic jlog apoints aoptions).coefficients.getD 1 0)
            aoptions.precision p.x)) ∧
      ((power jexp jlog jpow apoints aoptions).points = apoints ∧
        (power jexp jlog jpow apoints aoptions).predicted.length = apoints.length ∧
        ∀ i : ℕ, (power jexp jlog jpow apoints aoptions).predicted[i]? =
          apoints[i]?.map (fun p => powPredict jpow
            ((power jexp jlog jpow apoints aoptions).coefficients.getD 0 0)
            ((power jexp jlog jpow apoints aoptions).coefficients.getD 1 0)
            aoptions.precision p.x)) ∧
      ((polynomial apoints aoptions).points = apoints ∧
        (polynomial apoints aoptions).predicted.length = apoints.length ∧
        ∀ i : ℕ, (polynomial apoints aoptions).predicted[i]? = apoints[i]?.map (fun p =>
          polyPredict (polyCoefficients apoints aoptions) aoptions.precision p.x)) := by
  intro jexp jlog jpow apoints aoptions
  refine ⟨⟨rfl, ?_, ?_⟩, ⟨rfl, ?_, ?_⟩, ⟨rfl, ?_, ?_⟩, ⟨rfl, ?_, ?_⟩, ⟨rfl, ?_, ?_⟩⟩
  · exact List.length_map apoints _
  · intro i; exact List.getElem?_map _ apoints i
  · exact List.length_map apoints _
  · intro i; exact List.getElem?_map _ apoints i
  · exact List.length_map apoints _
  · intro i; exact List.getElem?_map _ apoints i
  · exact List.length_map apoints _
  · intro i; exact List.getElem?_map _ apoints i
  · exact List.length_map apoints _
  · intro i; exact List.getElem?_map _ apoints i

/-- C10: predictions (and hence r2) are computed from the coefficients
after rounding to options.precision, not from the full-precision
estimates: the linear gradient is rounded before the intercept is
derived from it, the logarithmic coefficient a is derived from the
already-rounded coefficient b, the exponential and power predictions
apply round to both a and b before use, and the polynomial prediction
consumes the rounded solver output; in each of the five kinds r2 is the
determination coefficient of exactly those predictions. -/
theorem c10_predictions_from_rounded_coefficients :
    (∀ (s : LinSums) (aprec : ℤ),
      linearGradient s aprec =
        if (s.len : ℚ) * s.s2 - s.s0 * s.s0 = 0 then 0
        else ApgRegrCalc.round (((s.len : ℚ) * s.s3 - s.s0 * s.s1) /
          ((s.len : ℚ) * s.s2 - s.s0 * s.s0)) aprec) ∧
    (∀ (s : LinSums) (g : ℚ) (aprec : ℤ),
      linearIntercept s g aprec =
        ApgRegrCalc.round (s.s1 / (s.len : ℚ) - g * s.s0 / (s.len : ℚ)) aprec) ∧
    (∀ (apoints : List Apg2DPoint) (aoptions : ApgRegrOptions),
      (linear apoints aoptions).predicted =
        apoints.map (fun p =>
          linearPredict (linearGradient (linearSums apoints) aoptions.precision)
            (linearIntercept (linearSums apoints)
              (linearGradient (linearSums apoints) aoptions.precision) aoptions.precision)
            aoptions.precision p.x) ∧
      (linear apoints aoptions).r2 =
        ApgRegrCalc.round (determinationCoefficient apoints
          (linear apoints aoptions).predicted) aoptions.precision) ∧
    (∀ (jexp jlog : ℚ → ℚ) (apoints : List Apg2DPoint) (aoptions : ApgRegrOptions),
      (exponential jexp jlog apoints aoptions).predicted =
        apoints.map (fun p => expPredict jexp
          (ApgRegrCalc.round
            (jexp (((exponentialSums jlog apoints).s2 * (exponentialSums jlog apoints).s3 -
              (exponentialSums jlog apoints).s5 * (exponentialSums jlog apoints).s4) /
              ((exponentialSums jlog apoints).s1 * (exponentialSums jlog apoints).s2 -
                (exponentialSums jlog apoints).s5 * (exponentialSums jlog apoints).s5)))
            aoptions.precision)
          (ApgRegrCalc.round
            (((exponentialSums jlog apoints).s1 * (exponentialSums jlog apoints).s4 -
              (exponentialSums jlog apoints).s5 * (exponentialSums jlog apoints).s3) /
              ((exponentialSums jlog apoints).s1 * (exponentialSums jlog apoints).s2 -
                (exponentialSums jlog apoints).s5 * (exponentialSums jlog apoints).s5))
            aoptions.precision)
          aoptions.precision p.x) ∧
      (exponential jexp jlog apoints aoptions).r2 =
        ApgRegrCalc.round (determinationCoefficient apoints
          (exponential jexp jlog apoints aoptions).predicted) aoptions.precision) ∧
    (∀ (jlog : ℚ → ℚ) (apoints : List Apg2DPoint) (aoptions : ApgRegrOptions),
      (logarithmic jlog apoints aoptions).coefficients =
        [ApgRegrCalc.round (((logarithmicSums jlog apoints).s2 -
            ApgRegrCalc.round (((apoints.length : ℚ) * (logarithmicSums jlog apoints).s1 -
              (logarithmicSums jlog apoints).s2 * (logarithmicSums jlog apoints).s0) /
              ((apoints.length : ℚ) * (logarithmicSums jlog apoints).s3 -
                (logarithmicSums jlog apoints).s0 * (logarithmicSums jlog apoints).s0))
              aoptions.precision * (logarithmicSums jlog apoints).s0) /
            (apoints.length : ℚ)) aoptions.precision,
          ApgRegrCalc.round (((apoints.length : ℚ) * (logarithmicSums jlog apoints).s1 -
            (logarithmicSums jlog apoints).s2 * (logarithmicSums jlog apoints).s0) /
            ((apoints.length : ℚ) * (logarithmicSums jlog apoints).s3 -
              (logarithmicSums jlog apoints).s0 * (logarithmicSums jlog apoints).s0))
            aoptions.precision] ∧
      (logarithmic jlog apoints aoptions).predicted =
        apoints.map (fun p => logPredict jlog
          ((logarithmic jlog apoints aoptions).coefficients.getD 0 0)
          ((logarithmic jlog apoints aoptions).coefficients.getD 1 0)
          aoptions.precision p.x) ∧
      (logarithmic jlog apoints aoptions).r2 =
        ApgRegrCalc.round (determinationCoefficient apoints
          (logarithmic jlog apoints aoptions).predicted) aoptions.precision) ∧
    (∀ (jexp jlog : ℚ → ℚ) (jpow : ℚ → ℚ → ℚ) (apoints : List Apg2DPoint)
      (aoptions : ApgRegrOptions),
      (power jexp jlog jpow apoints aoptions).predicted =
        apoints.map (fun p => powPredict jpow
          (ApgRegrCalc.round
            (jexp (((powerSums jlog apoints).s2 -
              ((apoints.length : ℚ) * (powerSums jlog apoints).s1 -
                (powerSums jlog apoints).s0 * (powerSums jlog apoints).s2) /
                ((apoints.length : ℚ) * (powerSums jlog apoints).s3 -
                  (powerSums jlog apoints).s0 ^ 2) * (powerSums jlog apoints).s0) /
              (apoints.length : ℚ)))
            aoptions.precision)
          (ApgRegrCalc.round
            (((apoints.length : ℚ) * (powerSums jlog apoints).s1 -
              (powerSums jlog apoints).s0 * (powerSums jlog apoints).s2) /
              ((apoints.length : ℚ) * (powerSums jlog apoints).s3 -
                (powerSums jlog apoints).s0 ^ 2))
            aoptions.precision)
          aoptions.precision p.x) ∧
      (power jexp jlog jpow apoints aoptions).r2 =
        ApgRegrCalc.round (determinationCoefficient apoints
          (power jexp jlog jpow apoints aoptions).predicted) aoptions.precision) ∧
    (∀ (apoints : List Apg2DPoint) (aoptions : ApgRegrOptions),
      (polynomial apoints aoptions).predicted =
        apoints.map (fun p =>
          polyPredict ((gaussianElimination (polyMatrix apoints (aoptions.order + 1))
            (aoptions.order + 1)).2.map (fun v => ApgRegrCalc.round v aoptions.precision))
            aoptions.precision p.x) ∧
      (polynomial apoints aoptions).r2 =
        ApgRegrCalc.round (determinationCoefficient apoints
          (polynomial apoints aoptions).predicted) aoptions.precision) :=
  ⟨fun _ _ => rfl, fun _ _ _ => rfl,
    fun _ _ => ⟨rfl, rfl⟩,
    fun _ _ _ _ => ⟨rfl, rfl⟩,
    fun _ _ _ => ⟨rfl, rfl, rfl⟩,
    fun _ _ _ _ _ => ⟨rfl, rfl⟩,
    fun _ _ => ⟨rfl, rfl⟩⟩
